import Mathlib

/-!
Shallow embedding of `update_sentiment.py` (gold-sentiment-feed).

Numbers are modelled as exact rationals (`ℚ`).  External collaborators
(RSS fetching, the VADER analyzer, `yfinance` history) are parameters:
feed entries arrive as lists of `Entry`, the per-headline compound score
is an abstract function `analyze : String → ℚ`, and each indicator
history is a `List ℚ` of close values in chronological order
(`iloc[0]` = head, `iloc[-1]` = last).
-/

namespace GoldSentiment

/-- The `WEIGHTS` dict, lines 41–46 of `update_sentiment.py`. -/
def WEIGHTS (k : String) : ℚ :=
  if k = "news_sentiment" then 0.60
  else if k = "dxy_signal" then 0.20
  else if k = "yield_signal" then 0.10
  else if k = "vix_signal" then 0.10
  else 0

/-- The `RELEVANT_KEYWORDS` list, lines 23–35. -/
def RELEVANT_KEYWORDS : List String :=
  ["gold", "xau", "xauusd", "precious metal",
   "fed", "federal reserve", "powell", "fomc",
   "inflation", "cpi", "ppi", "pce", "deflation",
   "rate", "interest rate", "rate cut", "rate hike",
   "dollar", "dxy", "usd", "greenback",
   "safe-haven", "safe haven", "haven",
   "geopolitical", "war", "conflict", "tension",
   "treasury", "yield", "bond",
   "nfp", "employment", "unemployment", "jobs",
   "recession", "crisis", "uncertainty", "volatility",
   "central bank", "stimulus", "tapering", "qe"]

/-- Model of the Python `kw in s` substring test: `s.splitOn kw` has more than one
    part exactly when `kw` occurs in `s` (all keywords are nonempty). -/
def containsSub (s kw : String) : Bool :=
  (s.splitOn kw).length != 1

/-- Relevance test of line 113: some keyword occurs in the lowered title. -/
def is_relevant (title_lower : String) : Bool :=
  RELEVANT_KEYWORDS.any (fun kw => containsSub title_lower kw)

/-- One raw feed entry: the title defaults to the empty string (default
    empty), the two parsed timestamps are optional.  Timestamps are
    modelled as integers (e.g. epoch seconds); only their order matters. -/
structure Entry where
  title : String
  published_parsed : Option Int
  updated_parsed : Option Int

/-- The timestamp lookup of line 106 (published falling back to
    updated): Python `or` falls through on `None`. -/
def pub_date (e : Entry) : Option Int :=
  e.published_parsed.orElse (fun _ => e.updated_parsed)

/-- The recency test of lines 107–110: discard iff a timestamp is
    present and `pub_datetime < cutoff_time`. -/
def recency_discard (cutoff : Int) (e : Entry) : Bool :=
  match pub_date e with
  | some t => t < cutoff
  | none => false

/-- The per-entry loop of `fetch_news_sentiment`, lines 101–124:
    recency filter, keyword relevance, case-insensitive dedup against
    `seen`, then score with the analyzer and append `(title, score)`.
    The `seen` set is modelled as a list queried by `contains`. -/
def process_entries (analyze : String → ℚ) (cutoff : Int) :
    List Entry → List String → List (String × ℚ) → List String × List (String × ℚ)
  | [], seen, headlines => (seen, headlines)
  | e :: rest, seen, headlines =>
      let title_lower := e.title.toLower
      if recency_discard cutoff e then
        process_entries analyze cutoff rest seen headlines
      else if is_relevant title_lower = false then
        process_entries analyze cutoff rest seen headlines
      else if seen.contains title_lower then
        process_entries analyze cutoff rest seen headlines
      else
        process_entries analyze cutoff rest (title_lower :: seen)
          (headlines ++ [(e.title, analyze e.title)])

/-- The headlines accumulated across all feeds (the outer loop of
    lines 95–133; a failed feed contributes an empty entry list). -/
def headlines_of (analyze : String → ℚ) (cutoff : Int)
    (feeds : List (List Entry)) : List (String × ℚ) :=
  (feeds.foldl
    (fun acc feed => process_entries analyze cutoff feed acc.1 acc.2)
    ([], [])).2

/-- Function `fetch_news_sentiment`, lines 82–147: if no headlines survive the
    filter return `0.0`, otherwise the arithmetic mean of the scores
    (line 140: `sum(score for _, score in headlines) / len(headlines)`). -/
def fetch_news_sentiment (analyze : String → ℚ) (cutoff : Int)
    (feeds : List (List Entry)) : ℚ :=
  if (headlines_of analyze cutoff feeds).isEmpty then 0.0
  else ((headlines_of analyze cutoff feeds).map Prod.snd).sum /
    ((headlines_of analyze cutoff feeds).length : ℚ)

/-- The clamp `max(-1.0, min(1.0, signal))`, as on lines 166, 192, 269. -/
def clamp (x : ℚ) : ℚ := max (-1) (min 1 x)

/-- Function `get_dxy_signal`, lines 150–174: fewer than 2 points gives `0.0`;
    else percent change between first and last close, scaled by `-1/3`
    and clamped.  (`ℚ` division by zero yields 0; the float behaviour
    at a zero first close is outside this embedding.) -/
def get_dxy_signal (closes : List ℚ) : ℚ :=
  if closes.length < 2 then 0.0
  else
    let current := closes.getLast?.getD 0
    let week_ago := closes.headD 0
    let change_pct := (current - week_ago) / week_ago * 100
    clamp (-change_pct / 3.0)

/-- Function `get_yield_signal`, lines 176–200: fewer than 2 points gives `0.0`;
    else absolute change between first and last close, scaled by `-0.4`
    and clamped. -/
def get_yield_signal (closes : List ℚ) : ℚ :=
  if closes.length < 2 then 0.0
  else
    let current := closes.getLast?.getD 0
    let week_ago := closes.headD 0
    let change := current - week_ago
    clamp (-change * 0.4)

/-- The VIX step table, lines 215–232 (an `elif` chain). -/
def vix_step (current : ℚ) : ℚ :=
  if current > 30 then 0.8
  else if current > 25 then 0.5
  else if current > 20 then 0.3
  else if current < 12 then -0.3
  else if current < 15 then -0.1
  else 0.0

/-- Function `get_vix_signal`, lines 202–239: the `len(hist) < 1` guard of line
    208 is exactly `getLast? = none`; otherwise the step table is
    applied to the latest close (`iloc[-1]`). -/
def get_vix_signal (closes : List ℚ) : ℚ :=
  match closes.getLast? with
  | none => 0.0
  | some current => vix_step current

/-- The weighted blend and clamp of `calculate_market_context`,
    lines 261–269. -/
def calculate_market_context (news_score dxy_score yield_score vix_score : ℚ) : ℚ :=
  clamp
    (news_score * WEIGHTS "news_sentiment" +
     dxy_score * WEIGHTS "dxy_signal" +
     yield_score * WEIGHTS "yield_signal" +
     vix_score * WEIGHTS "vix_signal")

/-- The bias classification of lines 272–281 (`if`/`elif` chain on the
    clamped final score). -/
def market_bias (final_score : ℚ) : String :=
  if final_score > 0.5 then "🟢 STRONGLY BULLISH"
  else if final_score > 0.2 then "🟢 BULLISH"
  else if final_score > -0.2 then "⚪ NEUTRAL"
  else if final_score > -0.5 then "🔴 BEARISH"
  else "🔴 STRONGLY BEARISH"

/-- Round-half-even at integer precision, as Python `format` rounds. -/
def round_half_even (q : ℚ) : Int :=
  let f := ⌊q⌋
  let r := q - f
  if r < 1/2 then f
  else if r > 1/2 then f + 1
  else if f % 2 = 0 then f else f + 1

/-- Left-pad a digit string to 4 characters with zeros. -/
def pad4 (s : String) : String :=
  String.mk (List.replicate (4 - s.length) '0') ++ s

/-- The 4-decimal fixed-point formatting of line 302. -/
def format4 (q : ℚ) : String :=
  let n := round_half_even (q * 10000)
  let sgn := if n < 0 then "-" else ""
  let m := n.natAbs
  sgn ++ toString (m / 10000) ++ "." ++ pad4 (toString (m % 10000))

/-- Result of one run: the sink contents (if the write succeeded) and
    the process exit status. -/
structure RunResult where
  written : Option String
  exitCode : Nat
deriving DecidableEq, Repr

/-- Functions `save_score` (lines 298–307) combined with the `__main__` block
    (lines 310–329).  `compute` is the outcome of
    `calculate_market_context` (`Except.error` models an unexpected
    exception during scoring), `writeOk` whether the file write
    succeeds.  Success path: write the formatted score and exit 0, or
    exit 1 if the write fails.  Exception path: attempt to write the
    neutral fallback `0.0` and exit 1 regardless. -/
def main_run (compute : Except String ℚ) (writeOk : Bool) : RunResult :=
  match compute with
  | Except.ok score =>
      if writeOk then ⟨some (format4 score), 0⟩
      else ⟨none, 1⟩
  | Except.error _ =>
      if writeOk then ⟨some (format4 0.0), 1⟩
      else ⟨none, 1⟩

/-- Abbreviation for the signal range invariant. -/
def inRange (x : ℚ) : Prop := -1 ≤ x ∧ x ≤ 1

/-! ### Helper lemmas -/

lemma clamp_range (x : ℚ) : inRange (clamp x) :=
  ⟨le_max_left _ _, max_le (by norm_num) (min_le_left _ _)⟩

lemma clamp_eq_self {x : ℚ} (h1 : -1 ≤ x) (h2 : x ≤ 1) : clamp x = x := by
  unfold clamp
  rw [min_eq_right h2, max_eq_right h1]

lemma vix_step_range (c : ℚ) : inRange (vix_step c) := by
  unfold inRange vix_step
  split_ifs <;> norm_num

lemma format4_zero : format4 0.0 = "0.0000" := by
  have h : round_half_even (0.0 * 10000) = 0 := by norm_num [round_half_even]
  simp [format4, h, pad4]
  rfl

lemma process_entries_snd_bound (analyze : String → ℚ)
    (hA : ∀ t, -1 ≤ analyze t ∧ analyze t ≤ 1) (cutoff : Int) :
    ∀ (entries : List Entry) (seen : List String) (hs : List (String × ℚ)),
      (∀ p ∈ hs, -1 ≤ p.2 ∧ p.2 ≤ 1) →
      ∀ p ∈ (process_entries analyze cutoff entries seen hs).2, -1 ≤ p.2 ∧ p.2 ≤ 1 := by
  intro entries
  induction entries with
  | nil => intro seen hs h p hp; exact h p hp
  | cons e rest ih =>
      intro seen hs h
      unfold process_entries
      dsimp only
      split_ifs with h1 h2 h3
      · exact ih seen hs h
      · exact ih seen hs h
      · exact ih seen hs h
      · refine ih (e.title.toLower :: seen) (hs ++ [(e.title, analyze e.title)]) ?_
        intro p hp
        rcases List.mem_append.mp hp with hmem | hmem
        · exact h p hmem
        · rcases List.mem_singleton.mp hmem with rfl
          exact hA e.title

lemma headlines_of_bound (analyze : String → ℚ)
    (hA : ∀ t, -1 ≤ analyze t ∧ analyze t ≤ 1) (cutoff : Int) (feeds : List (List Entry)) :
    ∀ p ∈ headlines_of analyze cutoff feeds, -1 ≤ p.2 ∧ p.2 ≤ 1 := by
  have aux : ∀ (fs : List (List Entry)) (seen : List String) (hs : List (String × ℚ)),
      (∀ p ∈ hs, -1 ≤ p.2 ∧ p.2 ≤ 1) →
      ∀ p ∈ (fs.foldl
          (fun acc feed => process_entries analyze cutoff feed acc.1 acc.2)
          (seen, hs)).2, -1 ≤ p.2 ∧ p.2 ≤ 1 := by
    intro fs
    induction fs with
    | nil => intro seen hs h p hp; exact h p hp
    | cons feed fs ih =>
        intro seen hs h
        have hstep := process_entries_snd_bound analyze hA cutoff feed seen hs h
        simpa using ih (process_entries analyze cutoff feed seen hs).1
          (process_entries analyze cutoff feed seen hs).2 hstep
  intro p hp
  exact aux feeds [] [] (by simp) p hp

lemma mean_bound (l : List ℚ) (hne : l ≠ [])
    (h : ∀ x ∈ l, -1 ≤ x ∧ x ≤ 1) :
    -1 ≤ l.sum / (l.length : ℚ) ∧ l.sum / (l.length : ℚ) ≤ 1 := by
  have hlen : 0 < (l.length : ℚ) := by
    exact_mod_cast List.length_pos.mpr hne
  have hup : l.sum ≤ (l.length : ℚ) := by
    have := List.sum_le_card_nsmul l 1 (fun x hx => (h x hx).2)
    simpa [nsmul_eq_mul] using this
  have hlo : -(l.length : ℚ) ≤ l.sum := by
    have := List.card_nsmul_le_sum l (-1) (fun x hx => (h x hx).1)
    simpa [nsmul_eq_mul] using this
  constructor
  · rw [le_div_iff₀ hlen]
    linarith
  · rw [div_le_one hlen]
    exact hup

/-! ### Claims -/

/-- C1: for every four input signals the final score equals
    `clamp(news*0.60 + dxy*0.20 + yield*0.10 + vix*0.10, -1, 1)`; in
    particular `news=1, dxy=0, yield=0, vix=0` gives final score `0.6`
    and the strongly-bullish bias label. -/
theorem c1_final_score_formula :
    (∀ n d y v : ℚ,
      calculate_market_context n d y v = clamp (n * 0.60 + d * 0.20 + y * 0.10 + v * 0.10)) ∧
    calculate_market_context 1 0 0 0 = 0.6 ∧
    market_bias (calculate_market_context 1 0 0 0) = "🟢 STRONGLY BULLISH" := by
  have hW : ∀ n d y v : ℚ,
      calculate_market_context n d y v = clamp (n * 0.60 + d * 0.20 + y * 0.10 + v * 0.10) := by
    intro n d y v
    unfold calculate_market_context
    simp [WEIGHTS]
  have hval : calculate_market_context 1 0 0 0 = 0.6 := by
    rw [hW]
    rw [clamp_eq_self (by norm_num) (by norm_num)]
    norm_num
  refine ⟨hW, hval, ?_⟩
  rw [hval]
  unfold market_bias
  rw [if_pos (by norm_num)]

/-- C2 counterexample: the code classifies a final score of exactly
    `-0.2` as BEARISH (not neutral) and exactly `-0.5` as STRONGLY
    BEARISH (not bearish), because every comparison in the chain is a
    strict `>`. -/
theorem c2_boundary_counterexample :
    market_bias (-0.2) = "🔴 BEARISH" ∧
    market_bias (-0.5) = "🔴 STRONGLY BEARISH" ∧
    market_bias (-0.2) ≠ "⚪ NEUTRAL" ∧
    market_bias (-0.5) ≠ "🔴 BEARISH" := by
  have h2 : market_bias (-0.2) = "🔴 BEARISH" := by
    unfold market_bias
    rw [if_neg (by norm_num), if_neg (by norm_num), if_neg (by norm_num),
      if_pos (by norm_num)]
  have h5 : market_bias (-0.5) = "🔴 STRONGLY BEARISH" := by
    unfold market_bias
    rw [if_neg (by norm_num), if_neg (by norm_num), if_neg (by norm_num),
      if_neg (by norm_num)]
  refine ⟨h2, h5, ?_, ?_⟩
  · rw [h2]; decide
  · rw [h5]; decide

/-- C2 amended: the label bands, with every boundary resolved by the
    strict `>` of the code: score > 0.5 strongly bullish;
    0.2 < score ≤ 0.5 bullish; -0.2 < score ≤ 0.2 neutral;
    -0.5 < score ≤ -0.2 bearish; score ≤ -0.5 strongly bearish — in
    particular exactly -0.2 is bearish and exactly -0.5 is strongly
    bearish. -/
theorem c2_bias_bands (s : ℚ) :
    (0.5 < s → market_bias s = "🟢 STRONGLY BULLISH") ∧
    (0.2 < s → s ≤ 0.5 → market_bias s = "🟢 BULLISH") ∧
    (-0.2 < s → s ≤ 0.2 → market_bias s = "⚪ NEUTRAL") ∧
    (-0.5 < s → s ≤ -0.2 → market_bias s = "🔴 BEARISH") ∧
    (s ≤ -0.5 → market_bias s = "🔴 STRONGLY BEARISH") := by
  unfold market_bias
  refine ⟨?_, ?_, ?_, ?_, ?_⟩
  · intro h1
    rw [if_pos h1]
  · intro h1 h2
    rw [if_neg (not_lt.mpr h2), if_pos h1]
  · intro h1 h2
    rw [if_neg (not_lt.mpr (by linarith)), if_neg (not_lt.mpr h2), if_pos h1]
  · intro h1 h2
    rw [if_neg (not_lt.mpr (by linarith)), if_neg (not_lt.mpr (by linarith)),
      if_neg (not_lt.mpr h2), if_pos h1]
  · intro h1
    rw [if_neg (not_lt.mpr (by linarith)), if_neg (not_lt.mpr (by linarith)),
      if_neg (not_lt.mpr (by linarith)), if_neg (not_lt.mpr h1)]

/-- C2 witness: the first band applied at score 1. -/
theorem c2_bias_bands_witness :
    (0.5 : ℚ) < 1 ∧ market_bias 1 = "🟢 STRONGLY BULLISH" :=
  ⟨by norm_num, (c2_bias_bands 1).1 (by norm_num)⟩

/-- C3 counterexample: a VIX series whose latest close is exactly 12.0
    yields signal -0.1 (the `current < 15` branch), not 0.0. -/
theorem c3_vix12_counterexample :
    get_vix_signal [12] = -0.1 ∧
    get_vix_signal [12] ≠ 0.0 ∧
    get_vix_signal [12] ≠ -0.3 := by
  have h : get_vix_signal [12] = -0.1 := by
    unfold get_vix_signal
    norm_num [vix_step]
  refine ⟨h, ?_, ?_⟩ <;> rw [h] <;> norm_num

/-- C3 amended: for a VIX series whose latest close is exactly 12.0,
    the signal is -0.1 (the low-fear band), not -0.3 and not 0.0. -/
theorem c3_vix_at_12 (closes : List ℚ) (h : closes.getLast? = some 12) :
    get_vix_signal closes = -0.1 ∧ get_vix_signal closes ≠ -0.3 := by
  have hv : get_vix_signal closes = -0.1 := by
    unfold get_vix_signal
    rw [h]
    norm_num [vix_step]
  exact ⟨hv, by rw [hv]; norm_num⟩

/-- C3 witness: the amended statement at the one-point series `[12]`. -/
theorem c3_vix_at_12_witness :
    ([(12 : ℚ)].getLast? = some 12) ∧ get_vix_signal [12] = -0.1 :=
  ⟨rfl, (c3_vix_at_12 [12] rfl).1⟩

/-- C4: for every VIX series with at least one point the signal is the
    step function of the latest close with exactly the claimed
    breakpoints and strictness: >30 ↦ 0.8; 25<v≤30 ↦ 0.5; 20<v≤25 ↦ 0.3;
    v<12 ↦ -0.3; 12≤v<15 ↦ -0.1; 15≤v≤20 ↦ 0.0 — in particular a latest
    close of exactly 25.0 gives 0.3, not 0.5. -/
theorem c4_vix_step_table (closes : List ℚ) (current : ℚ)
    (h : closes.getLast? = some current) :
    (30 < current → get_vix_signal closes = 0.8) ∧
    (25 < current → current ≤ 30 → get_vix_signal closes = 0.5) ∧
    (20 < current → current ≤ 25 → get_vix_signal closes = 0.3) ∧
    (current < 12 → get_vix_signal closes = -0.3) ∧
    (12 ≤ current → current < 15 → get_vix_signal closes = -0.1) ∧
    (15 ≤ current → current ≤ 20 → get_vix_signal closes = 0.0) ∧
    get_vix_signal [25] = 0.3 := by
  have hsig : get_vix_signal closes = vix_step current := by
    unfold get_vix_signal
    rw [h]
  have h25 : get_vix_signal [25] = 0.3 := by
    unfold get_vix_signal
    norm_num [vix_step]
  rw [hsig]
  unfold vix_step
  refine ⟨?_, ?_, ?_, ?_, ?_, ?_, h25⟩
  · intro h1
    rw [if_pos h1]
  · intro h1 h2
    rw [if_neg (not_lt.mpr h2), if_pos h1]
  · intro h1 h2
    rw [if_neg (not_lt.mpr (by linarith)), if_neg (not_lt.mpr h2), if_pos h1]
  · intro h1
    rw [if_neg (not_lt.mpr (by linarith)), if_neg (not_lt.mpr (by linarith)),
      if_neg (not_lt.mpr (by linarith)), if_pos h1]
  · intro h1 h2
    rw [if_neg (not_lt.mpr (by linarith)), if_neg (not_lt.mpr (by linarith)),
      if_neg (not_lt.mpr (by linarith)), if_neg (not_lt.mpr h1), if_pos h2]
  · intro h1 h2
    rw [if_neg (not_lt.mpr (by linarith)), if_neg (not_lt.mpr (by linarith)),
      if_neg (not_lt.mpr (by linarith)), if_neg (not_lt.mpr (by linarith)),
      if_neg (not_lt.mpr h1)]

/-- C4 witness: the elevated band applied at the series `[25]`. -/
theorem c4_vix_step_table_witness :
    ([(25 : ℚ)].getLast? = some 25) ∧ (20 : ℚ) < 25 ∧ (25 : ℚ) ≤ 25 ∧
    get_vix_signal [25] = 0.3 :=
  ⟨rfl, by norm_num, by norm_num,
    (c4_vix_step_table [25] 25 rfl).2.2.1 (by norm_num) (by norm_num)⟩

/-- C5: every computed signal and the final score lie in [-1, 1]: the
    currency and yield signals by the explicit clamp, the volatility
    signal because every branch of the step table is in [-1, 1], the
    news score because it is 0.0 when no headline survives and
    otherwise the mean of per-headline compound scores each in [-1, 1],
    and the final score by the clamp after weighting. -/
theorem c5_all_signals_bounded (analyze : String → ℚ)
    (hA : ∀ t, -1 ≤ analyze t ∧ analyze t ≤ 1) (cutoff : Int)
    (feeds : List (List Entry)) (dxyCloses yieldCloses vixCloses : List ℚ) :
    inRange (fetch_news_sentiment analyze cutoff feeds) ∧
    inRange (get_dxy_signal dxyCloses) ∧
    inRange (get_yield_signal yieldCloses) ∧
    inRange (get_vix_signal vixCloses) ∧
    ∀ n d y v : ℚ, inRange (calculate_market_context n d y v) := by
  refine ⟨?_, ?_, ?_, ?_, ?_⟩
  · unfold fetch_news_sentiment
    split_ifs with hemp
    · norm_num [inRange]
    · have hne : headlines_of analyze cutoff feeds ≠ [] := by
        intro hcon
        rw [hcon] at hemp
        exact hemp rfl
      have hmapne : (headlines_of analyze cutoff feeds).map Prod.snd ≠ [] := by
        simpa using hne
      have hbound : ∀ x ∈ (headlines_of analyze cutoff feeds).map Prod.snd,
          -1 ≤ x ∧ x ≤ 1 := by
        intro x hx
        rcases List.mem_map.mp hx with ⟨p, hp, rfl⟩
        exact headlines_of_bound analyze hA cutoff feeds p hp
      have hmean := mean_bound _ hmapne hbound
      rwa [List.length_map] at hmean
  · unfold get_dxy_signal
    split_ifs
    · norm_num [inRange]
    · exact clamp_range _
  · unfold get_yield_signal
    split_ifs
    · norm_num [inRange]
    · exact clamp_range _
  · unfold get_vix_signal
    cases vixCloses.getLast? with
    | none => norm_num [inRange]
    | some current => exact vix_step_range current
  · intro n d y v
    exact clamp_range _

/-- C5 witness: the news-score bound at the trivial analyzer and no
    feeds. -/
theorem c5_all_signals_bounded_witness :
    inRange (fetch_news_sentiment (fun _ => 0) 0 []) :=
  (c5_all_signals_bounded (fun _ => 0) (fun _ => by norm_num) 0 [] [] [] []).1

/-- C6: an unexpected exception during scoring still writes the neutral
    fallback `"0.0000"` to the sink (when the write works) and exits 1
    in every case; a successful computation and write exits 0; a write
    failure on the normal path exits 1. -/
theorem c6_exit_status_and_fallback (msg : String) (q : ℚ) :
    (main_run (Except.error msg) true).written = some "0.0000" ∧
    (∀ w : Bool, (main_run (Except.error msg) w).exitCode = 1) ∧
    (main_run (Except.ok q) true).exitCode = 0 ∧
    (main_run (Except.ok q) false).exitCode = 1 := by
  refine ⟨?_, ?_, rfl, rfl⟩
  · simp [main_run, format4_zero]
  · intro w
    cases w <;> simp [main_run]

/-- C7: if the filtered headline list is empty the sentiment scorer
    returns exactly 0.0 as a defined neutral fallback. -/
theorem c7_empty_headlines_neutral (analyze : String → ℚ) (cutoff : Int)
    (feeds : List (List Entry)) (h : headlines_of analyze cutoff feeds = []) :
    fetch_news_sentiment analyze cutoff feeds = 0.0 := by
  unfold fetch_news_sentiment
  rw [h]
  rfl

/-- C7 witness: the empty feed list produces no headlines and score 0.0. -/
theorem c7_empty_headlines_neutral_witness :
    headlines_of (fun _ => (0 : ℚ)) 0 [] = [] ∧
    fetch_news_sentiment (fun _ => (0 : ℚ)) 0 [] = 0.0 :=
  ⟨rfl, c7_empty_headlines_neutral (fun _ => (0 : ℚ)) 0 [] rfl⟩

/-- C8: in the headline filter, an entry whose publication timestamp is
    present and older than the cutoff is discarded outright, while an
    entry with no timestamp is never discarded by recency: it proceeds
    directly to the relevance and dedup steps. -/
theorem c8_recency_policy (cutoff : Int) (e : Entry) (analyze : String → ℚ)
    (rest : List Entry) (seen : List String) (hs : List (String × ℚ)) :
    (∀ t, pub_date e = some t → t < cutoff →
      process_entries analyze cutoff (e :: rest) seen hs =
        process_entries analyze cutoff rest seen hs) ∧
    (pub_date e = none →
      process_entries analyze cutoff (e :: rest) seen hs =
        if is_relevant e.title.toLower = false then
          process_entries analyze cutoff rest seen hs
        else if seen.contains e.title.toLower then
          process_entries analyze cutoff rest seen hs
        else
          process_entries analyze cutoff rest (e.title.toLower :: seen)
            (hs ++ [(e.title, analyze e.title)])) := by
  constructor
  · intro t ht hlt
    have hd : recency_discard cutoff e = true := by
      unfold recency_discard
      rw [ht]
      exact decide_eq_true hlt
    conv_lhs => rw [process_entries]
    rw [if_pos hd]
  · intro hnone
    have hd : recency_discard cutoff e = false := by
      unfold recency_discard
      rw [hnone]
    conv_lhs => rw [process_entries]
    rw [if_neg (by rw [hd]; exact Bool.false_ne_true)]

/-- C8 witness: a stale timestamped entry is dropped whole. -/
theorem c8_recency_policy_witness :
    pub_date ⟨"gold rally", some 0, none⟩ = some 0 ∧ (0 : Int) < 10 ∧
    process_entries (fun _ => (0 : ℚ)) 10 [⟨"gold rally", some 0, none⟩] [] [] = ([], []) := by
  refine ⟨rfl, by norm_num, ?_⟩
  have h := (c8_recency_policy 10 ⟨"gold rally", some 0, none⟩ (fun _ => (0 : ℚ))
    [] [] []).1 0 rfl (by norm_num)
  rw [h, process_entries]

/-- C9: the four default weights sum to exactly 1; for any four signals
    in [-1, 1] and nonnegative weights summing to 1 the weighted sum
    already lies in [-1, 1] before the clamp; and the clamp is
    idempotent. -/
theorem c9_weights_algebra (s1 s2 s3 s4 w1 w2 w3 w4 : ℚ)
    (hs1 : -1 ≤ s1) (hs1u : s1 ≤ 1) (hs2 : -1 ≤ s2) (hs2u : s2 ≤ 1)
    (hs3 : -1 ≤ s3) (hs3u : s3 ≤ 1) (hs4 : -1 ≤ s4) (hs4u : s4 ≤ 1)
    (hw1 : 0 ≤ w1) (hw2 : 0 ≤ w2) (hw3 : 0 ≤ w3) (hw4 : 0 ≤ w4)
    (hsum : w1 + w2 + w3 + w4 = 1) :
    WEIGHTS "news_sentiment" + WEIGHTS "dxy_signal" + WEIGHTS "yield_signal" +
      WEIGHTS "vix_signal" = 1 ∧
    -1 ≤ s1 * w1 + s2 * w2 + s3 * w3 + s4 * w4 ∧
    s1 * w1 + s2 * w2 + s3 * w3 + s4 * w4 ≤ 1 ∧
    ∀ x : ℚ, clamp (clamp x) = clamp x := by
  have hub1 : s1 * w1 ≤ w1 := mul_le_of_le_one_left hw1 hs1u
  have hub2 : s2 * w2 ≤ w2 := mul_le_of_le_one_left hw2 hs2u
  have hub3 : s3 * w3 ≤ w3 := mul_le_of_le_one_left hw3 hs3u
  have hub4 : s4 * w4 ≤ w4 := mul_le_of_le_one_left hw4 hs4u
  have hlb1 : -w1 ≤ s1 * w1 := by nlinarith
  have hlb2 : -w2 ≤ s2 * w2 := by nlinarith
  have hlb3 : -w3 ≤ s3 * w3 := by nlinarith
  have hlb4 : -w4 ≤ s4 * w4 := by nlinarith
  refine ⟨?_, by linarith, by linarith, ?_⟩
  · simp [WEIGHTS]
    norm_num
  · intro x
    exact clamp_eq_self (clamp_range x).1 (clamp_range x).2

/-- C9 witness: the theorem applied at the default weights and the
    signal vector (1, 0, 0, 0). -/
theorem c9_weights_algebra_witness :
    clamp (clamp 7) = clamp 7 ∧
    -1 ≤ (1 : ℚ) * 0.6 + 0 * 0.2 + 0 * 0.1 + 0 * 0.1 := by
  have h := c9_weights_algebra 1 0 0 0 0.6 0.2 0.1 0.1
    (by norm_num) (by norm_num) (by norm_num) (by norm_num)
    (by norm_num) (by norm_num) (by norm_num) (by norm_num)
    (by norm_num) (by norm_num) (by norm_num) (by norm_num) (by norm_num)
  exact ⟨h.2.2.2 7, h.2.1⟩

end GoldSentiment
